import Mathlib

/-!
# Verification of the npx-ray analysis pipeline

Shallow embedding, in Lean 4, of the scoring and scanning logic of the
npx-ray package auditor, together with theorems settling the frozen
claims about its specification.

The embedding mirrors the TypeScript source:

* `src/types.ts`      → the data model (`Severity`, `Finding`, `ScannerResult`, …)
* `src/scorer.ts`     → `CATEGORY_WEIGHTS`, `scoreCategory`, `scoreGitHub`,
                        `scoreDiff`, `toGrade`, `toVerdict`, `calculateScore`
* `src/cli.ts`        → the scan-phase orchestration (`scanPhase`) and the
                        canonical scanner list (`buildScanners`)
* the static-pattern scanner → pattern table entries, `isInsideStringOrComment`,
                        the block-comment line state, per-match severity logic
* `src/scanners/obfuscation.ts` → `detectLargeStringArray`, `classifyStringArray`
* the per-scanner result assembly blocks → `…Assemble` functions

JavaScript floating point `Math.log` arithmetic is modelled over `ℝ` with
`Real.log`; integer-only arithmetic stays over `ℝ` for uniformity in the
scorer.  JavaScript strings are modelled as `String` / `List Char`.
-/

set_option maxRecDepth 100000

namespace NpxRay

/-! ## Data model (`src/types.ts`) -/

/-- Severity level for a finding (`type Severity`). -/
inductive Severity where
  | critical
  | warning
  | info
deriving DecidableEq, Repr

/-- A single security finding from any scanner (`interface Finding`). -/
structure Finding where
  scanner : String
  severity : Severity
  message : String
  file : Option String := none
  line : Option Nat := none
  evidence : Option String := none
deriving DecidableEq, Repr

/-- Results from a single scanner (`interface ScannerResult`). -/
structure ScannerResult where
  name : String
  passed : Bool
  findings : List Finding
  summary : String
deriving DecidableEq, Repr

/-- GitHub repository health info (`interface GitHubHealth`).
The two ISO date strings are modelled as integer timestamps, which is what
`new Date(...)` comparisons in the scorer reduce to. -/
structure GitHubHealth where
  found : Bool
  fullName : String
  stars : Nat
  forks : Nat
  openIssues : Nat
  license : String
  createdAt : Int
  lastPush : Int
  archived : Bool
  publisherMatchesOwner : Bool
deriving DecidableEq, Repr

/-- Source-vs-npm diff results (`interface DiffResult`). -/
structure DiffResult where
  performed : Bool
  unexpectedFiles : List String
  expectedBuildFiles : List String
  modifiedFiles : List String
  error : Option String := none
deriving DecidableEq, Repr

/-- Package metadata from the npm registry (`interface PackageMetadata`).
Record maps are modelled as association lists; `trustedPublisher` keeps
only its `id` payload. -/
structure PackageMetadata where
  name : String
  version : String
  description : String
  license : String
  publisher : String
  publishedAt : String
  tarballUrl : String
  repositoryUrl : String
  homepage : String
  fileCount : Nat
  unpackedSize : Nat
  dependencies : List (String × String)
  optionalDependencies : List (String × String)
  scripts : List (String × String)
  maintainers : List String
  trustedPublisher : Option String := none
deriving DecidableEq, Repr

/-! ## Scorer (`src/scorer.ts`) -/

/-- Score plus grade plus verdict (`interface ScoreResult`). -/
structure ScoreResult where
  score : ℝ
  grade : String
  verdict : String

/-- Category weight configuration (`interface CategoryConfig`). -/
structure CategoryConfig where
  maxPoints : ℝ
  criticalDeduction : ℝ
  warningDeduction : ℝ
  infoDeduction : ℝ

/-- The `CATEGORY_WEIGHTS` record of `scorer.ts`, as a lookup by scanner name. -/
noncomputable def CATEGORY_WEIGHTS (name : String) : Option CategoryConfig :=
  if name = "static" then some ⟨25, 15, 5, 0⟩
  else if name = "obfuscation" then some ⟨15, 10, 10, 3⟩
  else if name = "hooks" then some ⟨10, 10, 5, 0⟩
  else if name = "secrets" then some ⟨5, 5, 5, 0⟩
  else if name = "binaries" then some ⟨5, 3, 3, 1⟩
  else if name = "dependencies" then some ⟨10, 10, 5, 0⟩
  else if name = "typosquatting" then some ⟨5, 5, 5, 0⟩
  else none

/-- The seven scanner names that carry weight in `CATEGORY_WEIGHTS`. -/
def weightedNames : List String :=
  ["static", "obfuscation", "hooks", "secrets", "binaries", "dependencies", "typosquatting"]

/-- Count of findings at a given severity (the `switch` loop of `scoreCategory`). -/
def countSeverity (findings : List Finding) (s : Severity) : Nat :=
  findings.countP (fun f => decide (f.severity = s))

/-- Diminishing-returns deduction: `base * (1 + ln count)`, zero at count 0
(the inner `diminishing` helper of `scoreCategory`). -/
noncomputable def diminishing (base : ℝ) (count : Nat) : ℝ :=
  if count = 0 then 0 else base * (1 + Real.log count)

/-- `scoreCategory` of `scorer.ts`: start from the category max and deduct
per severity with diminishing returns, clamping below at 0.  Unknown
categories contribute 0. -/
noncomputable def scoreCategory (result : ScannerResult) : ℝ :=
  match CATEGORY_WEIGHTS result.name with
  | none => 0
  | some config =>
      let criticalCount := countSeverity result.findings .critical
      let warningCount := countSeverity result.findings .warning
      let infoCount := countSeverity result.findings .info
      max 0 (config.maxPoints
        - diminishing config.criticalDeduction criticalCount
        - diminishing config.warningDeduction warningCount
        - diminishing config.infoDeduction infoCount)

/-- `scoreGitHub` of `scorer.ts`.  The scorer clock enters through
`oneMonthAgo`, the timestamp the code computes from `new Date()` by
subtracting one month; `createdDate > oneMonthAgo` deducts the new-repo
penalty. -/
noncomputable def scoreGitHub (github : Option GitHubHealth) (hasProvenance : Bool)
    (oneMonthAgo : Int) : ℝ :=
  match github with
  | none => 0
  | some gh =>
      if gh.found = false then 0
      else
        let p1 : ℝ := 15
        let p2 := if gh.archived then p1 - 10 else p1
        let p3 := if gh.stars = 0 then p2 - 5 else p2
        let p4 := if oneMonthAgo < gh.createdAt then p3 - 5 else p3
        let p5 :=
          if gh.publisherMatchesOwner = false then
            if hasProvenance then p4 - 0
            else if 100 ≤ gh.stars then p4 - 3
            else p4 - 10
          else p4
        max 0 p5

/-- `scoreDiff` of `scorer.ts`: max 10 points, capped diminishing deduction
for unexpected files, 0 when the diff was not performed. -/
noncomputable def scoreDiff (diff : Option DiffResult) : ℝ :=
  match diff with
  | none => 0
  | some d =>
      if d.performed = false then 0
      else
        let count := d.unexpectedFiles.length
        let points : ℝ :=
          if 0 < count then 10 - min 8 (3 * (1 + Real.log count)) else 10
        max 0 points

/-- `toGrade` of `scorer.ts`. -/
noncomputable def toGrade (score : ℝ) : String :=
  if 90 ≤ score then "A"
  else if 80 ≤ score then "B"
  else if 70 ≤ score then "C"
  else if 60 ≤ score then "D"
  else "F"

/-- `toVerdict` of `scorer.ts`. -/
def toVerdict (grade : String) : String :=
  if grade = "A" ∨ grade = "B" then "CLEAN — No issues detected"
  else if grade = "C" then "CAUTION — Review findings before installing"
  else if grade = "D" ∨ grade = "F" then "DANGER — Manual review strongly recommended"
  else "UNKNOWN"

/-- `calculateScore` of `scorer.ts`: sum the category scores, add GitHub
health and diff points, clamp to [0, 100], derive grade and verdict.
`hasProvenance` is `meta?.trustedPublisher !== undefined`. -/
noncomputable def calculateScore (scanners : List ScannerResult)
    (github : Option GitHubHealth) (diff : Option DiffResult)
    (meta : Option PackageMetadata) (oneMonthAgo : Int) : ScoreResult :=
  let total := (scanners.map scoreCategory).sum
  let hasProvenance := (meta.bind (·.trustedPublisher)).isSome
  let total := total + scoreGitHub github hasProvenance oneMonthAgo
  let total := total + scoreDiff diff
  let score := max 0 (min 100 total)
  { score := score, grade := toGrade score, verdict := toVerdict (toGrade score) }

/-- The scan pipeline's call `calculateScore(scanners, github, diff)` at
`cli.ts` step 6: the metadata argument is not passed. -/
noncomputable def cliCalculateScore (scanners : List ScannerResult)
    (github : Option GitHubHealth) (diff : Option DiffResult)
    (oneMonthAgo : Int) : ScoreResult :=
  calculateScore scanners github diff none oneMonthAgo

/-! ## Scorer lemmas -/

/-- Every weighted config has nonnegative max points and deductions, and
each deduction is at most the category max. -/
theorem weights_facts (name : String) (cfg : CategoryConfig)
    (h : CATEGORY_WEIGHTS name = some cfg) :
    0 ≤ cfg.maxPoints ∧
    0 ≤ cfg.criticalDeduction ∧ cfg.criticalDeduction ≤ cfg.maxPoints ∧
    0 ≤ cfg.warningDeduction ∧ cfg.warningDeduction ≤ cfg.maxPoints ∧
    0 ≤ cfg.infoDeduction ∧ cfg.infoDeduction ≤ cfg.maxPoints := by
  unfold CATEGORY_WEIGHTS at h
  split_ifs at h <;>
    first
      | exact Option.noConfusion h
      | (injection h with h2; subst h2; norm_num)

/-- A name outside the seven weighted categories has no weight config. -/
theorem CATEGORY_WEIGHTS_eq_none {name : String} (h : name ∉ weightedNames) :
    CATEGORY_WEIGHTS name = none := by
  unfold CATEGORY_WEIGHTS
  split_ifs with h1 h2 h3 h4 h5 h6 h7
  · exact absurd (by rw [h1]; decide) h
  · exact absurd (by rw [h2]; decide) h
  · exact absurd (by rw [h3]; decide) h
  · exact absurd (by rw [h4]; decide) h
  · exact absurd (by rw [h5]; decide) h
  · exact absurd (by rw [h6]; decide) h
  · exact absurd (by rw [h7]; decide) h
  · rfl

theorem diminishing_zero (base : ℝ) : diminishing base 0 = 0 := by
  unfold diminishing; simp

theorem diminishing_one (base : ℝ) : diminishing base 1 = base := by
  unfold diminishing; norm_num

theorem diminishing_nonneg {base : ℝ} (hb : 0 ≤ base) (n : ℕ) :
    0 ≤ diminishing base n := by
  unfold diminishing
  split
  · exact le_refl 0
  · have h1 : (0 : ℝ) ≤ Real.log n := Real.log_natCast_nonneg n
    have : (0 : ℝ) ≤ 1 + Real.log n := by linarith
    exact mul_nonneg hb this

/-- One more finding at a severity never shrinks its deduction. -/
theorem diminishing_le_succ {base : ℝ} (hb : 0 ≤ base) (n : ℕ) :
    diminishing base n ≤ diminishing base (n + 1) := by
  unfold diminishing
  rcases Nat.eq_zero_or_pos n with h0 | hp
  · subst h0
    norm_num
    exact hb
  · rw [if_neg (Nat.pos_iff_ne_zero.mp hp), if_neg (Nat.succ_ne_zero n)]
    push_cast
    have hlog : Real.log n ≤ Real.log ((n : ℝ) + 1) := by
      apply Real.log_le_log
      · exact_mod_cast hp
      · linarith
    have h2 : (1 : ℝ) + Real.log n ≤ 1 + Real.log ((n : ℝ) + 1) := by linarith
    exact mul_le_mul_of_nonneg_left h2 hb

/-- `scoreCategory` unfolded for a weighted scanner name. -/
theorem scoreCategory_eq (r : ScannerResult) (cfg : CategoryConfig)
    (h : CATEGORY_WEIGHTS r.name = some cfg) :
    scoreCategory r = max 0 (cfg.maxPoints
      - diminishing cfg.criticalDeduction (countSeverity r.findings .critical)
      - diminishing cfg.warningDeduction (countSeverity r.findings .warning)
      - diminishing cfg.infoDeduction (countSeverity r.findings .info)) := by
  unfold scoreCategory
  rw [h]

/-- `scoreCategory` of an unknown scanner name is 0. -/
theorem scoreCategory_eq_zero (r : ScannerResult)
    (h : CATEGORY_WEIGHTS r.name = none) : scoreCategory r = 0 := by
  unfold scoreCategory
  rw [h]

/-- Appending one finding bumps exactly the matching severity count. -/
theorem countSeverity_append_single (fs : List Finding) (f : Finding) (s : Severity) :
    countSeverity (fs ++ [f]) s
      = countSeverity fs s + (if f.severity = s then 1 else 0) := by
  unfold countSeverity
  rw [List.countP_append]
  simp [List.countP_cons]

/-- Appending a critical or warning finding never increases a category score. -/
theorem scoreCategory_append_le (r : ScannerResult) (f : Finding)
    (hf : f.severity = Severity.critical ∨ f.severity = Severity.warning) :
    scoreCategory { r with findings := r.findings ++ [f] } ≤ scoreCategory r := by
  cases hw : CATEGORY_WEIGHTS r.name with
  | none =>
      rw [scoreCategory_eq_zero { r with findings := r.findings ++ [f] } hw,
        scoreCategory_eq_zero r hw]
  | some cfg =>
      obtain ⟨hM, hc, hcM, hwd, hwM, hid, hiM⟩ := weights_facts _ _ hw
      rw [scoreCategory_eq { r with findings := r.findings ++ [f] } cfg hw,
        scoreCategory_eq r cfg hw]
      rcases hf with hf | hf
      · have e1 : countSeverity (r.findings ++ [f]) Severity.critical
            = countSeverity r.findings Severity.critical + 1 := by
          rw [countSeverity_append_single, hf]; simp
        have e2 : countSeverity (r.findings ++ [f]) Severity.warning
            = countSeverity r.findings Severity.warning := by
          rw [countSeverity_append_single, hf]; simp
        have e3 : countSeverity (r.findings ++ [f]) Severity.info
            = countSeverity r.findings Severity.info := by
          rw [countSeverity_append_single, hf]; simp
        rw [e1, e2, e3]
        refine max_le_max (le_refl 0) ?_
        have hcrit := diminishing_le_succ hc (countSeverity r.findings Severity.critical)
        linarith
      · have e1 : countSeverity (r.findings ++ [f]) Severity.critical
            = countSeverity r.findings Severity.critical := by
          rw [countSeverity_append_single, hf]; simp
        have e2 : countSeverity (r.findings ++ [f]) Severity.warning
            = countSeverity r.findings Severity.warning + 1 := by
          rw [countSeverity_append_single, hf]; simp
        have e3 : countSeverity (r.findings ++ [f]) Severity.info
            = countSeverity r.findings Severity.info := by
          rw [countSeverity_append_single, hf]; simp
        rw [e1, e2, e3]
        refine max_le_max (le_refl 0) ?_
        have hwarn := diminishing_le_succ hwd (countSeverity r.findings Severity.warning)
        linarith

/-! ## Claim theorems: scorer -/

/-- C1: for a ScannerResult named by one of the seven weighted categories,
the category score is the category max minus the per-severity diminishing
deductions `base * (1 + ln n)` (zero at `n = 0`), clamped below at 0 and
never above the category max; one single critical finding deducts exactly
the critical base amount. -/
theorem claim1_category_score_formula (r : ScannerResult)
    (h : r.name ∈ weightedNames) :
    ∃ cfg : CategoryConfig, CATEGORY_WEIGHTS r.name = some cfg ∧
      scoreCategory r = max 0 (cfg.maxPoints
        - diminishing cfg.criticalDeduction (countSeverity r.findings .critical)
        - diminishing cfg.warningDeduction (countSeverity r.findings .warning)
        - diminishing cfg.infoDeduction (countSeverity r.findings .info)) ∧
      0 ≤ scoreCategory r ∧ scoreCategory r ≤ cfg.maxPoints ∧
      (countSeverity r.findings .critical = 1 →
        countSeverity r.findings .warning = 0 →
        countSeverity r.findings .info = 0 →
        scoreCategory r = cfg.maxPoints - cfg.criticalDeduction) := by
  obtain ⟨cfg, hcfg⟩ : ∃ cfg, CATEGORY_WEIGHTS r.name = some cfg := by
    simp only [weightedNames, List.mem_cons, List.not_mem_nil, or_false] at h
    rcases h with h | h | h | h | h | h | h <;> rw [h] <;> exact ⟨_, rfl⟩
  obtain ⟨hM, hc, hcM, hwd, hwM, hid, hiM⟩ := weights_facts _ _ hcfg
  have heq := scoreCategory_eq r cfg hcfg
  refine ⟨cfg, hcfg, heq, ?_, ?_, ?_⟩
  · rw [heq]; exact le_max_left _ _
  · rw [heq]
    apply max_le hM
    have h1 := diminishing_nonneg hc (countSeverity r.findings .critical)
    have h2 := diminishing_nonneg hwd (countSeverity r.findings .warning)
    have h3 := diminishing_nonneg hid (countSeverity r.findings .info)
    linarith
  · intro h1 h0w h0i
    rw [heq, h1, h0w, h0i, diminishing_one, diminishing_zero, diminishing_zero]
    have : cfg.maxPoints - cfg.criticalDeduction - 0 - 0
        = cfg.maxPoints - cfg.criticalDeduction := by ring
    rw [this]
    exact max_eq_right (by linarith)

/-- Example scanner result used to witness the scorer claims. -/
def rCritExample : ScannerResult :=
  ⟨"static", false,
    [⟨"static", Severity.critical, "eval() call — arbitrary code execution",
      some "index.js", some 1, none⟩],
    "Found 1 critical pattern(s) across 1 files"⟩

theorem claim1_witness :
    rCritExample.name ∈ weightedNames ∧
    (∃ cfg : CategoryConfig, CATEGORY_WEIGHTS rCritExample.name = some cfg ∧
      scoreCategory rCritExample = max 0 (cfg.maxPoints
        - diminishing cfg.criticalDeduction (countSeverity rCritExample.findings .critical)
        - diminishing cfg.warningDeduction (countSeverity rCritExample.findings .warning)
        - diminishing cfg.infoDeduction (countSeverity rCritExample.findings .info)) ∧
      0 ≤ scoreCategory rCritExample ∧ scoreCategory rCritExample ≤ cfg.maxPoints ∧
      (countSeverity rCritExample.findings .critical = 1 →
        countSeverity rCritExample.findings .warning = 0 →
        countSeverity rCritExample.findings .info = 0 →
        scoreCategory rCritExample = cfg.maxPoints - cfg.criticalDeduction)) :=
  ⟨by decide, claim1_category_score_formula rCritExample (by decide)⟩

/-- C2: appending one finding of severity critical or warning to any one
scanner result in the list never increases the total score returned by
`calculateScore`, whatever the optional GitHub health, diff, metadata and
clock inputs. -/
theorem claim2_score_monotone (pre post : List ScannerResult) (r : ScannerResult)
    (f : Finding)
    (hf : f.severity = Severity.critical ∨ f.severity = Severity.warning)
    (github : Option GitHubHealth) (diff : Option DiffResult)
    (meta : Option PackageMetadata) (oneMonthAgo : Int) :
    (calculateScore (pre ++ ({ r with findings := r.findings ++ [f] } :: post))
        github diff meta oneMonthAgo).score
      ≤ (calculateScore (pre ++ (r :: post)) github diff meta oneMonthAgo).score := by
  have hkey := scoreCategory_append_le r f hf
  unfold calculateScore
  simp only [List.map_append, List.map_cons, List.sum_append, List.sum_cons]
  apply max_le_max (le_refl 0)
  apply min_le_min (le_refl 100)
  linarith

theorem claim2_witness :
    ((⟨"static", Severity.critical, "eval() call — arbitrary code execution",
        none, none, none⟩ : Finding).severity = Severity.critical ∨
      (⟨"static", Severity.critical, "eval() call — arbitrary code execution",
        none, none, none⟩ : Finding).severity = Severity.warning) ∧
    (calculateScore
        ([] ++ ({ rCritExample with findings := rCritExample.findings ++
          [⟨"static", Severity.critical, "eval() call — arbitrary code execution",
            none, none, none⟩] } :: [])) none none none 0).score
      ≤ (calculateScore ([] ++ (rCritExample :: [])) none none none 0).score :=
  ⟨Or.inl rfl,
    claim2_score_monotone [] [] rCritExample _ (Or.inl rfl) none none none 0⟩

/-- C10: a ScannerResult whose name lies outside the seven weighted
categories — the IOC scanner's result in particular — contributes 0 to the
score, and its findings cannot change the score, grade or verdict. -/
theorem claim10_unweighted_no_effect (r r' : ScannerResult)
    (h : r.name ∉ weightedNames) (h' : r'.name = r.name)
    (pre post : List ScannerResult)
    (github : Option GitHubHealth) (diff : Option DiffResult)
    (meta : Option PackageMetadata) (oneMonthAgo : Int) :
    scoreCategory r = 0 ∧
    calculateScore (pre ++ (r :: post)) github diff meta oneMonthAgo
      = calculateScore (pre ++ (r' :: post)) github diff meta oneMonthAgo := by
  have hr : scoreCategory r = 0 :=
    scoreCategory_eq_zero r (CATEGORY_WEIGHTS_eq_none h)
  have hr' : scoreCategory r' = 0 :=
    scoreCategory_eq_zero r' (CATEGORY_WEIGHTS_eq_none (h' ▸ h))
  refine ⟨hr, ?_⟩
  unfold calculateScore
  simp only [List.map_append, List.map_cons, List.sum_append, List.sum_cons, hr, hr']

/-- IOC result with a decoded-only warning finding, used as witness data. -/
def rIocWarningExample : ScannerResult :=
  ⟨"ioc", true,
    [⟨"ioc", Severity.warning, "URL (base64-decoded): hxxp[://]evil[.]example/payload",
      some "index.js", some 3, some "Decoded from base64 obfuscation"⟩],
    "1 URL(s) extracted (defanged)"⟩

theorem claim10_witness :
    rIocWarningExample.name ∉ weightedNames ∧
    (scoreCategory rIocWarningExample = 0 ∧
      calculateScore ([] ++ (rIocWarningExample :: [])) none none none 0
        = calculateScore ([] ++ ((⟨"ioc", true, [], "No URLs or IP addresses found"⟩ :
            ScannerResult) :: [])) none none none 0) :=
  ⟨by decide,
    claim10_unweighted_no_effect rIocWarningExample
      ⟨"ioc", true, [], "No URLs or IP addresses found"⟩
      (by decide) rfl [] [] none none none 0⟩

/-! ## C8: provenance is dropped by the pipeline's scorer call -/

/-- Repository health for a found repo with publisher mismatch, 10 stars,
not archived, created long before the clock's one-month cutoff. -/
def ghMismatch : GitHubHealth :=
  ⟨true, "owner/repo", 10, 2, 1, "MIT", -1000, 0, false, false⟩

/-- Package metadata carrying a trusted-publisher (provenance) attestation. -/
def metaProv : PackageMetadata :=
  ⟨"pkg", "1.0.0", "", "MIT", "publisher", "", "", "", "", 0, 0, [], [], [], [],
    some "github"⟩

/-- C8: the pipeline's `calculateScore(scanners, github, diff)` call omits
the metadata argument, so the provenance-aware zero deduction is
unreachable: for a provenance-attested package with a mismatched publisher
and fewer than 100 stars the pipeline health contribution is 5 (deducting
10), while passing the metadata — as the claim describes — would give 15. -/
theorem claim8_provenance_dropped :
    metaProv.trustedPublisher.isSome = true ∧
    ghMismatch.found = true ∧
    ghMismatch.publisherMatchesOwner = false ∧
    ghMismatch.stars < 100 ∧
    (cliCalculateScore [] (some ghMismatch) none 0).score = 5 ∧
    (calculateScore [] (some ghMismatch) none (some metaProv) 0).score = 15 := by
  refine ⟨rfl, rfl, rfl, by norm_num [ghMismatch], ?_, ?_⟩
  · unfold cliCalculateScore calculateScore scoreGitHub scoreDiff
    norm_num [ghMismatch]
  · unfold calculateScore scoreGitHub scoreDiff
    norm_num [ghMismatch, metaProv]

/-! ## Scanner result assembly

Each scanner ends by computing `passed` and a summary from its findings;
these blocks are embedded verbatim (the severity counts use
`filter(...).length`, i.e. `countSeverity`). -/

/-- Result assembly of `scanSecrets` (tail of `scanners/secrets.ts`). -/
def secretsAssemble (findings : List Finding) : ScannerResult :=
  let criticalCount := countSeverity findings .critical
  let warningCount := countSeverity findings .warning
  let passed := criticalCount == 0 && warningCount == 0
  let summary :=
    if findings.length = 0 then "No embedded secrets detected"
    else "Secrets found: " ++ String.intercalate ", "
      ((if 0 < criticalCount then [toString criticalCount ++ " critical"] else []) ++
        (if 0 < warningCount then [toString warningCount ++ " warning"] else []))
  ⟨"secrets", passed, findings, summary⟩

/-- Result assembly of `scanStatic` (tail of the static-pattern scanner). -/
def staticAssemble (findings : List Finding) (sourceFileCount : Nat)
    (cliTool : Bool) : ScannerResult :=
  let criticalCount := countSeverity findings .critical
  let warningCount := countSeverity findings .warning
  let infoCount := countSeverity findings .info
  let passed := criticalCount == 0 && warningCount == 0
  let summary :=
    if findings.length = 0 then "No dangerous patterns detected"
    else
      let cliNote := if cliTool then " (CLI tool — shell execution expected)" else ""
      "Found " ++ String.intercalate ", "
        ((if 0 < criticalCount then [toString criticalCount ++ " critical"] else []) ++
          (if 0 < warningCount then [toString warningCount ++ " warning"] else []) ++
          (if 0 < infoCount then [toString infoCount ++ " info"] else []))
        ++ " pattern(s) across " ++ toString sourceFileCount ++ " files" ++ cliNote
  ⟨"static", passed, findings, summary⟩

/-- Result assembly of `scanObfuscation` (tail of `scanners/obfuscation.ts`). -/
def obfuscationAssemble (findings : List Finding) : ScannerResult :=
  let criticalCount := countSeverity findings .critical
  let warningCount := countSeverity findings .warning
  let infoCount := countSeverity findings .info
  let passed := criticalCount == 0 && warningCount == 0
  let summary :=
    if findings.length = 0 then "No obfuscation detected"
    else "Obfuscation indicators: " ++ String.intercalate ", "
      ((if 0 < criticalCount then [toString criticalCount ++ " critical"] else []) ++
        (if 0 < warningCount then [toString warningCount ++ " warning"] else []) ++
        (if 0 < infoCount then [toString infoCount ++ " info"] else []))
  ⟨"obfuscation", passed, findings, summary⟩

/-- JavaScript `\w` character class. -/
def wordCharJs (c : Char) : Bool := c.isAlphanum || c = '_'

/-- The `/^"(\w+)"/` extraction used by the hooks summary. -/
def matchLeadingQuotedWord (s : String) : Option String :=
  match s.data with
  | '"' :: rest =>
      let w := rest.takeWhile wordCharJs
      (match rest.drop w.length with
        | '"' :: _ => if w.length ≠ 0 then some (String.mk w) else none
        | _ => none)
  | _ => none

/-- Result assembly of `scanHooks` (tail of the lifecycle-hook scanner). -/
def hooksAssemble (findings : List Finding) : ScannerResult :=
  let criticalCount := countSeverity findings .critical
  let warningCount := countSeverity findings .warning
  let passed := criticalCount == 0 && warningCount == 0
  let summary :=
    if findings.length = 0 then "No lifecycle hooks found"
    else
      let hookNames :=
        ((findings.filter (fun f => !(f.severity == Severity.info))).map
          (fun f => (matchLeadingQuotedWord f.message).getD "")).filter (fun s => s ≠ "")
      if 0 < hookNames.length then
        "Lifecycle hooks: " ++ String.intercalate ", " hookNames ++
          (if 0 < criticalCount then
            " (" ++ toString criticalCount ++ " with shell commands)" else "")
      else "Only benign lifecycle hooks (prepare)"
  ⟨"hooks", passed, findings, summary⟩

/-- Result assembly of `scanDependencies` (tail of the dependency scanner). -/
def dependenciesAssemble (findings : List Finding) (directCount optionalCount : Nat) :
    ScannerResult :=
  let criticalCount := countSeverity findings .critical
  let warningCount := countSeverity findings .warning
  let passed := criticalCount == 0 && warningCount == 0
  let base := toString directCount ++ " direct, " ++ toString optionalCount
    ++ " optional dependencies"
  let summary :=
    if 0 < criticalCount ∨ 0 < warningCount then
      base ++ " (" ++ String.intercalate ", "
        ((if 0 < criticalCount then [toString criticalCount ++ " critical"] else []) ++
          (if 0 < warningCount then [toString warningCount ++ " warning"] else [])) ++ ")"
    else base
  ⟨"dependencies", passed, findings, summary⟩

/-- Result assembly of `scanTyposquatting` (tail of the typosquatting
scanner); `similar` is the sorted similar-package list used for the summary. -/
def typosquattingAssemble (findings : List Finding) (similar : List (String × Nat)) :
    ScannerResult :=
  let criticalCount := countSeverity findings .critical
  let warningCount := countSeverity findings .warning
  let passed := criticalCount == 0 && warningCount == 0
  let summary :=
    if findings.length = 0 then "No similar popular package names"
    else "Similar to: " ++ String.intercalate ", "
      (similar.map (fun s => "\"" ++ s.1 ++ "\" (dist " ++ toString s.2 ++ ")"))
  ⟨"typosquatting", passed, findings, summary⟩

/-- One recorded binary file: relative path, lowercased extension, file name. -/
structure BinFile where
  relPath : String
  ext : String
  name : String
deriving DecidableEq, Repr

/-- The findings loop of `scanBinaries`: every flagged file yields one
warning finding. -/
def binariesFindings (files : List BinFile) : List Finding :=
  files.map (fun p =>
    { scanner := "binaries", severity := Severity.warning,
      message := "Binary file found: " ++ p.ext ++ " (cannot be source-reviewed)",
      file := some p.relPath, evidence := some p.name })

/-- Insertion-ordered tally used by the binaries summary (`extCounts` map). -/
def tallyKeys (keys : List String) : List (String × Nat) :=
  keys.foldl (fun acc k =>
    if acc.any (fun p => p.1 == k) then
      acc.map (fun p => if p.1 == k then (p.1, p.2 + 1) else p)
    else acc ++ [(k, 1)]) []

/-- Result assembly of `scanBinaries`: `passed` is findings-emptiness (all
findings are warnings), summary groups counts by extension. -/
def binariesAssemble (files : List BinFile) : ScannerResult :=
  let findings := binariesFindings files
  let passed := findings.length == 0
  let summary :=
    if findings.length = 0 then "No binary files found"
    else toString findings.length ++ " binary file(s): " ++
      String.intercalate ", "
        ((tallyKeys (files.map (·.ext))).map
          (fun p => toString p.2 ++ " " ++ p.1))
  ⟨"binaries", passed, findings, summary⟩

/-- Kind of an IOC (`type` field of the dedup-map entries in `scanIoc`). -/
inductive IocType where
  | url
  | ipv4
deriving DecidableEq, Repr

/-- A discovery location of an IOC (`files` entries in `scanIoc`). -/
structure IocLoc where
  file : String
  line : Nat
deriving DecidableEq, Repr

/-- One entry of the IOC dedup map (`IocEntry` in `scanners/ioc.ts`). -/
structure IocEntry where
  raw : String
  defanged : String
  type : IocType
  files : List IocLoc
  decodedFrom : Option String := none
deriving DecidableEq, Repr

/-- The URL-findings loop of `scanIoc` (lines 546–562). -/
def iocUrlFinding (ioc : IocEntry) : Finding :=
  let firstLoc := ioc.files.head?
  let label := match ioc.decodedFrom with
    | some m => "URL (" ++ m ++ "-decoded)"
    | none => "External URL"
  let evidenceParts : List String :=
    (match ioc.decodedFrom with
      | some m => ["Decoded from " ++ m ++ " obfuscation"]
      | none => []) ++
    (if 1 < ioc.files.length then
      ["Found in " ++ toString ioc.files.length ++ " location(s)"] else [])
  { scanner := "ioc",
    severity := if ioc.decodedFrom.isSome then Severity.warning else Severity.info,
    message := label ++ ": " ++ ioc.defanged,
    file := firstLoc.map (·.file),
    line := firstLoc.map (·.line),
    evidence := if 0 < evidenceParts.length then
      some (String.intercalate "; " evidenceParts) else none }

/-- The IP-findings loop of `scanIoc` (lines 564–580). -/
def iocIpFinding (ioc : IocEntry) : Finding :=
  let firstLoc := ioc.files.head?
  let label := match ioc.decodedFrom with
    | some m => "IP (" ++ m ++ "-decoded)"
    | none => "External IP"
  let evidenceParts : List String :=
    (match ioc.decodedFrom with
      | some m => ["Decoded from " ++ m ++ " obfuscation"]
      | none => []) ++
    (if 1 < ioc.files.length then
      ["Found in " ++ toString ioc.files.length ++ " location(s)"] else [])
  { scanner := "ioc",
    severity := if ioc.decodedFrom.isSome then Severity.warning else Severity.info,
    message := label ++ ": " ++ ioc.defanged,
    file := firstLoc.map (·.file),
    line := firstLoc.map (·.line),
    evidence := if 0 < evidenceParts.length then
      some (String.intercalate "; " evidenceParts) else none }

/-- Result assembly of `scanIoc` (lines 543–599): findings are built from
the dedup map's values and `passed` is hard-coded `true`. -/
def iocAssemble (iocValues : List IocEntry) : ScannerResult :=
  let urls := iocValues.filter (fun e => e.type == IocType.url)
  let ips := iocValues.filter (fun e => e.type == IocType.ipv4)
  let findings := urls.map iocUrlFinding ++ ips.map iocIpFinding
  let passed := true
  let summary :=
    if findings.length = 0 then "No URLs or IP addresses found"
    else String.intercalate ", "
      ((if 0 < urls.length then [toString urls.length ++ " URL(s)"] else []) ++
        (if 0 < ips.length then [toString ips.length ++ " IP(s)"] else []))
      ++ " extracted (defanged)"
  ⟨"ioc", passed, findings, summary⟩

/-! ## C3: `passed` versus critical/warning findings -/

/-- The `criticalCount === 0 && warningCount === 0` computation agrees with
"no critical and no warning finding". -/
theorem passed_counts_iff (fs : List Finding) :
    ((countSeverity fs .critical == 0 && countSeverity fs .warning == 0) = true)
      ↔ ∀ f ∈ fs, f.severity ≠ Severity.critical ∧ f.severity ≠ Severity.warning := by
  simp only [Bool.and_eq_true, beq_iff_eq, countSeverity, List.countP_eq_zero,
    decide_eq_true_eq]
  constructor
  · intro h f hf
    exact ⟨h.1 f hf, h.2 f hf⟩
  · intro h
    exact ⟨fun f hf => (h f hf).1, fun f hf => (h f hf).2⟩

/-- Counterexample data for C3: a decoded-only IOC entry. -/
def iocDecodedEntry : IocEntry :=
  ⟨"http://evil.example/payload", "hxxp[://]evil[.]example/payload", IocType.url,
    [⟨"index.js", 3⟩], some "base64"⟩

/-- C3 is false on the code: `scanIoc` reports `passed = true` while its
findings contain a warning-severity (decoded-only) finding. -/
theorem claim3_counterexample :
    (iocAssemble [iocDecodedEntry]).passed = true ∧
    ((iocAssemble [iocDecodedEntry]).findings.any
      (fun f => f.severity == Severity.warning)) = true := ⟨rfl, rfl⟩

/-- C3 amended: the seven scanners static, obfuscation, hooks, secrets,
binaries, dependencies and typosquatting satisfy `passed` ⇔ no
critical-or-warning finding, but the IOC scanner always reports
`passed = true`, even when decoded-only IOCs yield warning findings. -/
theorem claim3_amended :
    (∀ fs, (secretsAssemble fs).passed = true ↔
      ∀ f ∈ (secretsAssemble fs).findings,
        f.severity ≠ Severity.critical ∧ f.severity ≠ Severity.warning) ∧
    (∀ fs n cli, (staticAssemble fs n cli).passed = true ↔
      ∀ f ∈ (staticAssemble fs n cli).findings,
        f.severity ≠ Severity.critical ∧ f.severity ≠ Severity.warning) ∧
    (∀ fs, (obfuscationAssemble fs).passed = true ↔
      ∀ f ∈ (obfuscationAssemble fs).findings,
        f.severity ≠ Severity.critical ∧ f.severity ≠ Severity.warning) ∧
    (∀ fs, (hooksAssemble fs).passed = true ↔
      ∀ f ∈ (hooksAssemble fs).findings,
        f.severity ≠ Severity.critical ∧ f.severity ≠ Severity.warning) ∧
    (∀ fs d o, (dependenciesAssemble fs d o).passed = true ↔
      ∀ f ∈ (dependenciesAssemble fs d o).findings,
        f.severity ≠ Severity.critical ∧ f.severity ≠ Severity.warning) ∧
    (∀ fs sim, (typosquattingAssemble fs sim).passed = true ↔
      ∀ f ∈ (typosquattingAssemble fs sim).findings,
        f.severity ≠ Severity.critical ∧ f.severity ≠ Severity.warning) ∧
    (∀ files, (binariesAssemble files).passed = true ↔
      ∀ f ∈ (binariesAssemble files).findings,
        f.severity ≠ Severity.critical ∧ f.severity ≠ Severity.warning) ∧
    (∀ entries, (iocAssemble entries).passed = true) := by
  refine ⟨fun fs => passed_counts_iff fs, fun fs n cli => passed_counts_iff fs,
    fun fs => passed_counts_iff fs, fun fs => passed_counts_iff fs,
    fun fs d o => passed_counts_iff fs, fun fs sim => passed_counts_iff fs,
    ?_, fun _ => rfl⟩
  intro files
  constructor
  · intro hp f hf
    have : (binariesFindings files).length = 0 := by
      simpa [binariesAssemble] using hp
    rw [List.length_eq_zero] at this
    simp only [binariesAssemble] at hf
    rw [this] at hf
    cases hf
  · intro h
    cases hfe : binariesFindings files with
    | nil => simp [binariesAssemble, hfe]
    | cons f rest =>
        exfalso
        have hf : f ∈ (binariesAssemble files).findings := by
          simp [binariesAssemble, hfe]
        have hwarn : f.severity = Severity.warning := by
          have : f ∈ binariesFindings files := by rw [hfe]; exact List.mem_cons_self f rest
          obtain ⟨p, _, rfl⟩ := List.mem_map.mp this
          rfl
        exact (h f hf).2 hwarn

/-! ## C4: scan-phase failure handling (`cli.ts` step 3) -/

/-- `Promise.all` over the scanner invocations: all results, or the first
rejection. -/
def promiseAll : List (Except String ScannerResult) → Except String (List ScannerResult)
  | [] => Except.ok []
  | Except.ok r :: rest =>
      match promiseAll rest with
      | Except.ok rs => Except.ok (r :: rs)
      | Except.error e => Except.error e
  | Except.error e :: _ => Except.error e

/-- Step 3 of `scanPackage`: `Promise.all` in a `try` whose `catch` marks
the spinner failed and rethrows the error. -/
def scanPhase (outcomes : List (Except String ScannerResult)) :
    Except String (List ScannerResult) :=
  match promiseAll outcomes with
  | Except.ok scanners => Except.ok scanners
  | Except.error e => Except.error e

/-- A clean static result used in the orchestration examples. -/
def okStaticResult : ScannerResult := ⟨"static", true, [], "No dangerous patterns detected"⟩

/-- C4 is false on the code: one scanner rejection makes the scan phase
rethrow, so no report is produced and the other scanners' results are
dropped rather than preserved. -/
theorem claim4_counterexample :
    scanPhase [Except.ok okStaticResult, Except.error "boom"] = Except.error "boom" ∧
    (scanPhase [Except.ok okStaticResult, Except.error "boom"]).isOk = false :=
  ⟨rfl, rfl⟩

/-- C4 amended: when every scanner resolves, the scan phase returns exactly
their results in order; when any scanner rejects, the orchestrator
rethrows the first rejection and the whole scan aborts (the CLI then exits
with code 2), preserving none of the results. -/
theorem claim4_amended :
    (∀ rs : List ScannerResult, scanPhase (rs.map Except.ok) = Except.ok rs) ∧
    (∀ (pre : List ScannerResult) (e : String)
        (post : List (Except String ScannerResult)),
      scanPhase (pre.map Except.ok ++ Except.error e :: post) = Except.error e) := by
  have hall : ∀ rs : List ScannerResult, promiseAll (rs.map Except.ok) = Except.ok rs := by
    intro rs
    induction rs with
    | nil => rfl
    | cons r rest ih => simp [promiseAll, ih]
  have herr : ∀ (pre : List ScannerResult) (e : String)
      (post : List (Except String ScannerResult)),
      promiseAll (pre.map Except.ok ++ Except.error e :: post) = Except.error e := by
    intro pre e post
    induction pre with
    | nil => rfl
    | cons r rest ih => simp [promiseAll, ih]
  constructor
  · intro rs
    simp [scanPhase, hall rs]
  · intro pre e post
    simp [scanPhase, herr pre e post]

/-! ## C9: report scanner order (`cli.ts` steps 3 and 7) -/

/-- The fixed scanner order of the `Promise.all` array in `scanPackage`,
which is the order the report's `scanners` field carries. -/
def canonicalScannerNames : List String :=
  ["static", "obfuscation", "hooks", "secrets", "binaries", "dependencies",
    "typosquatting", "ioc"]

/-- The `scanners` array as assembled by `scanPackage`. -/
def buildScanners (s o h se b d t i : ScannerResult) : List ScannerResult :=
  [s, o, h, se, b, d, t, i]

/-- C9 is false on the code: the fixed order is not alphabetical — the list
starts "static", "obfuscation" although "obfuscation" sorts before
"static". -/
theorem claim9_counterexample :
    canonicalScannerNames.head? = some "static" ∧
    canonicalScannerNames.get? 1 = some "obfuscation" ∧
    ¬ (("static" : String) ≤ "obfuscation") := by
  refine ⟨rfl, rfl, ?_⟩
  rw [String.le_iff_toList_le]
  decide

/-- C9 amended: every report's scanner list is exactly the canonical fixed
set, in the fixed invocation order static, obfuscation, hooks, secrets,
binaries, dependencies, typosquatting, ioc (not alphabetical). -/
theorem claim9_amended (s o h se b d t i : ScannerResult)
    (hs : s.name = "static") (ho : o.name = "obfuscation") (hh : h.name = "hooks")
    (hse : se.name = "secrets") (hb : b.name = "binaries")
    (hd : d.name = "dependencies") (ht : t.name = "typosquatting")
    (hi : i.name = "ioc") :
    (buildScanners s o h se b d t i).map ScannerResult.name = canonicalScannerNames := by
  simp [buildScanners, canonicalScannerNames, hs, ho, hh, hse, hb, hd, ht, hi]

/-- A minimal scanner result with a given name. -/
def mkNamedResult (n : String) : ScannerResult := ⟨n, true, [], ""⟩

theorem claim9_witness :
    (buildScanners (mkNamedResult "static") (mkNamedResult "obfuscation")
        (mkNamedResult "hooks") (mkNamedResult "secrets") (mkNamedResult "binaries")
        (mkNamedResult "dependencies") (mkNamedResult "typosquatting")
        (mkNamedResult "ioc")).map ScannerResult.name = canonicalScannerNames :=
  claim9_amended _ _ _ _ _ _ _ _ rfl rfl rfl rfl rfl rfl rfl rfl

/-! ## Static-pattern scanner (the version with string-context checking)

Regexes are embedded as explicit matchers over `List Char`; `exec` returns
the first match index. -/

/-- The single-quote character (ASCII 39). -/
def quoteSingle : Char := Char.ofNat 39

/-- The backtick character (ASCII 96). -/
def quoteBack : Char := Char.ofNat 96

/-- JavaScript `\s` (for the ASCII source scanned here). -/
def isSpaceJs (c : Char) : Bool :=
  c = ' ' || c = '\t' || c = '\n' || c = '\x0d' || c = '\x0b' || c = '\x0c'

/-- Literal-at test: does `s` start with `lit`? -/
def litAt : List Char → List Char → Bool
  | [], _ => true
  | _ :: _, [] => false
  | c :: cs, d :: ds => c == d && litAt cs ds

/-- Count of leading JS-whitespace characters. -/
def wsCount : List Char → Nat
  | c :: rest => if isSpaceJs c then wsCount rest + 1 else 0
  | [] => 0

/-- First index (from `i` counting down `fuel`) where `p` holds. -/
def firstMatchAux (p : Nat → Bool) : Nat → Nat → Option Nat
  | 0, _ => none
  | fuel + 1, i => if p i then some i else firstMatchAux p fuel (i + 1)

/-- First index in `[0, len]` where `p` holds (regex `exec` semantics:
leftmost match wins). -/
def firstMatch (p : Nat → Bool) (len : Nat) : Option Nat :=
  firstMatchAux p (len + 1) 0

/-- Index just past the JS-whitespace run starting at `i` (`\s*`). -/
def skipWsIdx (line : List Char) (i : Nat) : Nat := i + wsCount (line.drop i)

/-- `lit` occurs at index `i` of `line`. -/
def startsWithFrom (line : List Char) (i : Nat) (lit : List Char) : Bool :=
  litAt lit (line.drop i)

/-- `\b` before index `i`: start of line or a non-word character. -/
def wordBoundaryBefore (line : List Char) (i : Nat) : Bool :=
  match i with
  | 0 => true
  | k + 1 =>
      match line.get? k with
      | some c => !wordCharJs c
      | none => true

/-- `/\beval\s*\(/` matches at index `i`. -/
def evalMatchAt (line : List Char) (i : Nat) : Bool :=
  wordBoundaryBefore line i && startsWithFrom line i ("eval".data) &&
    line.get? (skipWsIdx line (i + 4)) == some '('

/-- `/new\s+Function\s*\(/` matches at index `i`. -/
def newFunctionMatchAt (line : List Char) (i : Nat) : Bool :=
  startsWithFrom line i ("new".data) &&
    (let w := wsCount (line.drop (i + 3))
     decide (0 < w) &&
     startsWithFrom line (i + 3 + w) ("Function".data) &&
     line.get? (skipWsIdx line (i + 3 + w + 8)) == some '(')

/-- `/\bexecSync\s*\(/` matches at index `i`. -/
def execSyncMatchAt (line : List Char) (i : Nat) : Bool :=
  wordBoundaryBefore line i && startsWithFrom line i ("execSync".data) &&
    line.get? (skipWsIdx line (i + 8)) == some '('

/-- `/\bexecFile\s*\(/` matches at index `i`. -/
def execFileMatchAt (line : List Char) (i : Nat) : Bool :=
  wordBoundaryBefore line i && startsWithFrom line i ("execFile".data) &&
    line.get? (skipWsIdx line (i + 8)) == some '('

/-- `.test` of the `execSync` regex. -/
def execSyncTest (line : List Char) : Bool :=
  (firstMatch (execSyncMatchAt line) line.length).isSome

/-- `.test` of the `execFile` regex. -/
def execFileTest (line : List Char) : Bool :=
  (firstMatch (execFileMatchAt line) line.length).isSome

/-- One entry of the static scanner's `PATTERNS` table.  The compiled
regex is embedded as a first-match function. -/
structure Pattern where
  matcher : List Char → Option Nat
  severity : Severity
  message : String
  cliExpected : Bool := false
  checkStringContext : Bool := false

/-- The `eval` entry of `PATTERNS`: critical, string-context checked, not
cli-expected. -/
def evalPattern : Pattern :=
  { matcher := fun line => firstMatch (evalMatchAt line) line.length,
    severity := Severity.critical,
    message := "eval() call — arbitrary code execution",
    checkStringContext := true }

/-- The `new Function` entry of `PATTERNS`: critical, string-context
checked, and — as written in the source — `cliExpected: true`. -/
def newFunctionPattern : Pattern :=
  { matcher := fun line => firstMatch (newFunctionMatchAt line) line.length,
    severity := Severity.critical,
    message := "new Function() — dynamic code generation",
    checkStringContext := true,
    cliExpected := true }

/-- `isInsideStringOrComment`'s scanning loop: walk the prefix before the
match index (the first argument counts the remaining positions), tracking
the current quote character; a `//` outside a string means the rest of the
line is a comment.  An escape consumes two positions, like the `i++` in
the loop body. -/
def isicWalk : Nat → List Char → Option Char → Bool
  | 0, _, inString => inString.isSome
  | _ + 1, [], inString => inString.isSome
  | k + 1, c :: rest, some q =>
      if c = '\\' then
        (match k, rest with
          | 0, _ => (some q).isSome
          | _ + 1, [] => (some q).isSome
          | k' + 1, _ :: rest' => isicWalk k' rest' (some q))
      else if c = q then isicWalk k rest none
      else isicWalk k rest (some q)
  | k + 1, c :: rest, none =>
      if c = '"' ∨ c = quoteSingle ∨ c = quoteBack then isicWalk k rest (some c)
      else if c = '/' ∧ rest.head? = some '/' then true
      else isicWalk k rest none

/-- `isInsideStringOrComment` of the static scanner. -/
def isInsideStringOrComment (line : List Char) (matchIndex : Nat) : Bool :=
  isicWalk matchIndex line none

/-- Suffix after the first `*/`, when one exists. -/
def dropThroughClose : List Char → Option (List Char)
  | '*' :: '/' :: rest => some rest
  | _ :: rest => dropThroughClose rest
  | [] => none

/-- `line.replace(/\/\*[\s\S]*?\*\//g, '')`: remove each inline (closed)
block comment; an unclosed `/*` stays. -/
def stripInlineBlockComments : Nat → List Char → List Char
  | 0, l => l
  | fuel + 1, '/' :: '*' :: rest =>
      (match dropThroughClose rest with
        | some rest' => stripInlineBlockComments fuel rest'
        | none => '/' :: '*' :: rest)
  | fuel + 1, c :: rest => c :: stripInlineBlockComments fuel rest
  | _ + 1, [] => []

/-- Substring containment test. -/
def containsSub (sub : List Char) : List Char → Bool
  | [] => litAt sub []
  | c :: rest => litAt sub (c :: rest) || containsSub sub rest

/-- The per-line block-comment bookkeeping of `scanStatic` (lines 379–392):
returns `(lineInBlockComment, next inBlockComment state)`. -/
def blockCommentStep (inBlockComment : Bool) (line : List Char) : Bool × Bool :=
  let lineInBlockComment := inBlockComment
  let state1 :=
    if inBlockComment then
      (if containsSub ['*', '/'] line then false else inBlockComment)
    else inBlockComment
  let state2 :=
    if !lineInBlockComment then
      (let stripped := stripInlineBlockComments line.length line
       if containsSub ['/', '*'] stripped then true else state1)
    else state1
  (lineInBlockComment, state2)

/-- JS `trim` for these ASCII lines. -/
def trimJs (l : List Char) : List Char :=
  ((l.dropWhile isSpaceJs).reverse.dropWhile isSpaceJs).reverse

/-- `line.trim().substring(0, 200)`. -/
def trimTake200 (line : List Char) : String := String.mk ((trimJs line).take 200)

/-- The per-pattern, per-line match processing of `scanStatic`
(lines 394–434): exec-dedup, string/comment suppression, CLI downgrade,
finding construction. -/
def processPattern (relPath : String) (lineIdx : Nat) (cliTool : Bool)
    (lineInBlockComment : Bool) (line : List Char) (p : Pattern) : Option Finding :=
  match p.matcher line with
  | none => none
  | some idx =>
      if litAt ("exec()".data) p.message.data && (execSyncTest line || execFileTest line) then
        none
      else
        let inStringOrComment :=
          if p.checkStringContext then
            lineInBlockComment || isInsideStringOrComment line idx
          else false
        let severity0 := if cliTool && p.cliExpected then Severity.info else p.severity
        let message0 :=
          if cliTool && p.cliExpected then p.message ++ " (expected for CLI tool)"
          else p.message
        let sevMsg :=
          if inStringOrComment && !(severity0 == Severity.info) then
            (Severity.info, p.message ++ " (in string/comment)")
          else (severity0, message0)
        some
          { scanner := "static", severity := sevMsg.1, message := sevMsg.2,
            file := some relPath, line := some (lineIdx + 1),
            evidence := some (trimTake200 line) }

/-! ## C5: CLI downgrade of the code-execution patterns -/

/-- C5: the code marks `new Function` as cli-expected, so for a package
with a `bin` field its finding is downgraded to info with the CLI suffix,
contradicting the claim (and the code's own comment) that it stays
critical; `eval` does stay critical. -/
theorem claim5_code_behavior :
    newFunctionPattern.cliExpected = true ∧
    processPattern "index.js" 0 true false
        (("const f = new Function(code)").data) newFunctionPattern
      = some
        { scanner := "static", severity := Severity.info,
          message := "new Function() — dynamic code generation (expected for CLI tool)",
          file := some "index.js", line := some 1,
          evidence := some "const f = new Function(code)" } ∧
    processPattern "index.js" 0 true false (("eval(code)").data) evalPattern
      = some
        { scanner := "static", severity := Severity.critical,
          message := "eval() call — arbitrary code execution",
          file := some "index.js", line := some 1,
          evidence := some "eval(code)" } := by
  refine ⟨rfl, by decide, by decide⟩

/-! ## C6: string/comment suppression -/

/-- Whether a position falls inside a `/* … */` block comment of the line,
following the spec's wording: a `/*` opens a block comment, the next `*/`
closes it (scan from the line start outside any comment; the first
argument counts the remaining positions before the match index). -/
def specIBCWalk : Nat → List Char → Bool → Bool
  | 0, _, inBC => inBC
  | _ + 1, [], inBC => inBC
  | k + 1, c :: rest, true =>
      if c = '*' ∧ rest.head? = some '/' then
        (match k, rest with
          | 0, _ => false
          | _ + 1, [] => false
          | k' + 1, _ :: rest' => specIBCWalk k' rest' false)
      else specIBCWalk k rest true
  | k + 1, c :: rest, false =>
      if c = '/' ∧ rest.head? = some '*' then
        (match k, rest with
          | 0, _ => true
          | _ + 1, [] => true
          | k' + 1, _ :: rest' => specIBCWalk k' rest' true)
      else specIBCWalk k rest false

/-- Spec-side predicate: match index inside a same-line block comment. -/
def specInsideBlockComment (line : List Char) (idx : Nat) : Bool :=
  specIBCWalk idx line false

/-- C6 is false on the code: in `/* eval(x) */` the `eval` match at index 3
falls inside a block comment (per the claim's own description), yet the
scanner keeps critical severity and does not append the suffix, because
same-line block comments are invisible to `isInsideStringOrComment` and to
the cross-line state. -/
theorem claim6_counterexample :
    specInsideBlockComment (("/* eval(x) */").data) 3 = true ∧
    evalPattern.matcher (("/* eval(x) */").data) = some 3 ∧
    processPattern "index.js" 0 false false (("/* eval(x) */").data) evalPattern
      = some
        { scanner := "static", severity := Severity.critical,
          message := "eval() call — arbitrary code execution",
          file := some "index.js", line := some 1,
          evidence := some "/* eval(x) */" } := by
  refine ⟨by decide, by decide, by decide⟩

/-- C6 amended: for check-string-context patterns, a match inside a quoted
string or after `//` on its line is downgraded to info with the
"(in string/comment)" suffix, and every match on a line that *starts*
inside a block comment opened on an earlier line is downgraded (whole-line
granularity); matches outside keep the base severity, but a `/* … */`
comment opened earlier on the same line does not downgrade. -/
theorem claim6_amended :
    processPattern "a.js" 0 false false (("x = \"eval(1)\"").data) evalPattern
      = some
        { scanner := "static", severity := Severity.info,
          message := "eval() call — arbitrary code execution (in string/comment)",
          file := some "a.js", line := some 1,
          evidence := some "x = \"eval(1)\"" } ∧
    processPattern "a.js" 0 false false (("// eval(1)").data) evalPattern
      = some
        { scanner := "static", severity := Severity.info,
          message := "eval() call — arbitrary code execution (in string/comment)",
          file := some "a.js", line := some 1,
          evidence := some "// eval(1)" } ∧
    (blockCommentStep false (("/* start of a comment").data)).2 = true ∧
    (blockCommentStep true ((" eval(1) */ done").data)).1 = true ∧
    processPattern "a.js" 1 false true ((" eval(1) */ done").data) evalPattern
      = some
        { scanner := "static", severity := Severity.info,
          message := "eval() call — arbitrary code execution (in string/comment)",
          file := some "a.js", line := some 2,
          evidence := some "eval(1) */ done" } ∧
    processPattern "a.js" 0 false false (("eval(1)").data) evalPattern
      = some
        { scanner := "static", severity := Severity.critical,
          message := "eval() call — arbitrary code execution",
          file := some "a.js", line := some 1,
          evidence := some "eval(1)" } ∧
    (∀ (p : Pattern) (line : List Char) (relPath : String) (lineIdx : Nat)
        (cliTool : Bool) (f : Finding),
      p.checkStringContext = true →
      processPattern relPath lineIdx cliTool true line p = some f →
      f.severity = Severity.info) := by
  refine ⟨by decide, by decide, by decide, rfl, by decide, by decide, ?_⟩
  intro p line relPath lineIdx cliTool f hctx hp
  unfold processPattern at hp
  split at hp
  · exact Option.noConfusion hp
  · split at hp
    · exact Option.noConfusion hp
    · simp only [hctx, eq_self_iff_true, if_true, Bool.true_or, Bool.true_and] at hp
      split at hp
      · obtain rfl := (Option.some.inj hp).symm
        rfl
      · rename_i hsp
        obtain rfl := (Option.some.inj hp).symm
        split <;> simp_all

theorem claim6_amended_witness :
    evalPattern.checkStringContext = true ∧
    ((processPattern "w.js" 0 false true (("eval(1)").data) evalPattern).map
      Finding.severity) = some Severity.info := by
  refine ⟨rfl, ?_⟩
  rcases hp : processPattern "w.js" 0 false true (("eval(1)").data) evalPattern
    with _ | f
  · exact absurd hp (by decide)
  · have := (claim6_amended.2.2.2.2.2.2) evalPattern (("eval(1)").data) "w.js" 0 false f
      rfl hp
    simp [Option.map, this]

/-! ## Obfuscation scanner: large string-array detection
(`src/scanners/obfuscation.ts`, `detectLargeStringArray` /
`classifyStringArray`)

JavaScript float ratios (`readableRatio`, `avgLen`) are modelled as exact
rationals via `mkRat` (denominator 0 gives 0, so the `NaN >= x` is-false
behaviour of an empty `strings` is preserved). -/

/-- Classification outcome (`type StringArrayResult`): `false` is
`noArray`. -/
inductive StringArrayResult where
  | obfuscated
  | data
  | noArray
deriving DecidableEq, Repr

/-- `[0-9a-fA-F]`. -/
def isHexDigitJs (c : Char) : Bool :=
  c.isDigit || ('a' ≤ c && c ≤ 'f') || ('A' ≤ c && c ≤ 'F')

/-- `/\.\s*name\s*\(/` matches at index `i` of `s`. -/
def dotCallAt (name : List Char) (s : List Char) (i : Nat) : Bool :=
  s.get? i == some '.' &&
    (let j := skipWsIdx s (i + 1)
     startsWithFrom s j name &&
       s.get? (skipWsIdx s (j + name.length)) == some '(')

/-- `.test` of `/\.\s*name\s*\(/`. -/
def testDotCall (name : List Char) (s : List Char) : Bool :=
  (firstMatch (dotCallAt name s) s.length).isSome

/-- `/_0x[0-9a-fA-F]+\s*=\s*$/` matches starting at index `i` and
reaching the end of `s`. -/
def obfVarEndAt (s : List Char) (i : Nat) : Bool :=
  startsWithFrom s i ("_0x".data) &&
    (let run := ((s.drop (i + 3)).takeWhile isHexDigitJs).length
     decide (0 < run) &&
       (let j := skipWsIdx s (i + 3 + run)
        s.get? j == some '=' && skipWsIdx s (j + 1) == s.length))

/-- `.test` of the obfuscator-variable pattern on the window before the
array. -/
def hasObfuscatorVarEnd (s : List Char) : Bool :=
  (firstMatch (obfVarEndAt s) s.length).isSome

/-- Length of the run of consecutive `\xHH` escapes at the head. -/
def countHexEscapes : List Char → Nat
  | '\\' :: 'x' :: h1 :: h2 :: rest =>
      if isHexDigitJs h1 && isHexDigitJs h2 then countHexEscapes rest + 1 else 0
  | _ => 0

/-- `.test` of `/(\\x[0-9a-fA-F]{2}){2,}/`. -/
def hasHexEscapeRun2 : List Char → Bool
  | [] => false
  | c :: rest => decide (2 ≤ countHexEscapes (c :: rest)) || hasHexEscapeRun2 rest

/-- Length of the run of consecutive `\uHHHH` escapes at the head. -/
def countUniEscapes : List Char → Nat
  | '\\' :: 'u' :: h1 :: h2 :: h3 :: h4 :: rest =>
      if isHexDigitJs h1 && isHexDigitJs h2 && isHexDigitJs h3 && isHexDigitJs h4 then
        countUniEscapes rest + 1
      else 0
  | _ => 0

/-- `.test` of `/(\\u[0-9a-fA-F]{4}){2,}/`. -/
def hasUniEscapeRun2 : List Char → Bool
  | [] => false
  | c :: rest => decide (2 ≤ countUniEscapes (c :: rest)) || hasUniEscapeRun2 rest

/-- The readability filter of `classifyStringArray`: at least one letter
and no hex/unicode escape run of length ≥ 2. -/
def readableString (s : List Char) : Bool :=
  s.any (fun c => c.isAlpha) && !hasHexEscapeRun2 s && !hasUniEscapeRun2 s

/-- `classifyStringArray` of `obfuscation.ts` (lines 127–165). -/
def classifyStringArray (strings : List (List Char)) (content : List Char)
    (arrayStart arrayEnd : Nat) : StringArrayResult :=
  let windowAfter := (content.drop arrayEnd).take 500
  let hasRotation := testDotCall ("push".data) windowAfter &&
    testDotCall ("shift".data) windowAfter
  let windowBefore := (content.drop (arrayStart - 50)).take (arrayStart - (arrayStart - 50))
  let hasObfuscatorVar := hasObfuscatorVarEnd windowBefore
  if hasRotation && hasObfuscatorVar then StringArrayResult.obfuscated
  else
    let avgLen : ℚ := mkRat ((strings.map List.length).sum : ℤ) strings.length
    let readableCount := (strings.filter readableString).length
    let readableRatio : ℚ := mkRat (readableCount : ℤ) strings.length
    if hasRotation then StringArrayResult.obfuscated
    else if mkRat 3 10 ≤ readableRatio ∧ mkRat 2 1 ≤ avgLen then StringArrayResult.data
    else StringArrayResult.data

/-- Result of the quoted-string scan inside `detectLargeStringArray`:
either the body before the closing quote together with the rest of the
input, or — when the string never closes — how far the index advanced. -/
inductive StrScan where
  | closed (body : List Char) (rest : List Char)
  | unclosed (advance : Nat)

/-- The inner quoted-string walk of `detectLargeStringArray`: consume
until the closing quote, a `\` skipping the following character. -/
def scanStringBody (q : Char) : List Char → StrScan
  | [] => StrScan.unclosed 0
  | c :: rest =>
      if c = q then StrScan.closed [] rest
      else if c = '\\' then
        (match rest with
          | [] => StrScan.unclosed 2
          | d :: rest' =>
              match scanStringBody q rest' with
              | StrScan.closed body rest'' => StrScan.closed (c :: d :: body) rest''
              | StrScan.unclosed n => StrScan.unclosed (n + 2))
      else
        (match scanStringBody q rest with
          | StrScan.closed body rest' => StrScan.closed (c :: body) rest'
          | StrScan.unclosed n => StrScan.unclosed (n + 1))

/-- Count of leading whitespace/comma characters (`/[\s,]/` skip). -/
def wsCommaCount : List Char → Nat
  | c :: rest => if isSpaceJs c || c = ',' then wsCommaCount rest + 1 else 0
  | [] => 0

/-- The `while (j < content.length && content[j] !== ']')` element loop of
`detectLargeStringArray`, carrying the absolute index `j`, the suffix at
`j`, the collected strings (capped at 60) and the `found` state; the
classification fires the first time more than 50 strings are collected.
Returns the strings, the `found` state and the final `j`.  The fuel is at
least the suffix length plus one, and every continuing iteration consumes
at least one character. -/
def parseArrayLoop (content : List Char) (arrayStart : Nat) :
    Nat → Nat → List Char → List (List Char) → StringArrayResult →
      (List (List Char) × StringArrayResult × Nat)
  | 0, j, _, strings, found => (strings, found, j)
  | fuel + 1, j, rem, strings, found =>
      match rem with
      | [] => (strings, found, j)
      | c :: _ =>
          if c = ']' then (strings, found, j)
          else
            let w := wsCount rem
            let j1 := j + w
            let rem1 := rem.drop w
            match rem1 with
            | [] => (strings, found, j1)
            | q :: rest1 =>
                if q = '"' ∨ q = quoteSingle ∨ q = quoteBack then
                  match scanStringBody q rest1 with
                  | StrScan.closed body rest2 =>
                      let j2 := j1 + 1 + body.length + 1
                      let strings1 :=
                        if strings.length < 60 then strings ++ [body] else strings
                      let sc := wsCommaCount rest2
                      let j3 := j2 + sc
                      let rem3 := rest2.drop sc
                      let found1 :=
                        if 50 < strings1.length ∧ found = StringArrayResult.noArray then
                          classifyStringArray strings1 content arrayStart j3
                        else found
                      parseArrayLoop content arrayStart fuel j3 rem3 strings1 found1
                  | StrScan.unclosed n =>
                      let jU := j1 + 1 + n
                      let foundU :=
                        if 50 < strings.length ∧ found = StringArrayResult.noArray then
                          classifyStringArray strings content arrayStart jU
                        else found
                      (strings, foundU, jU)
                else (strings, found, j1)

/-- The per-`[` block of `detectLargeStringArray`: run the element loop,
then the final `strings.length > 50` check. -/
def detectAtBracket (content : List Char) (i : Nat) (rem : List Char)
    (found : StringArrayResult) : StringArrayResult :=
  let r := parseArrayLoop content i (rem.length + 1) (i + 1) rem [] found
  if 50 < r.1.length ∧ r.2.1 = StringArrayResult.noArray then
    classifyStringArray r.1 content i r.2.2
  else r.2.1

/-- The outer character scan of `detectLargeStringArray`: at each `[`,
parse and classify; an obfuscated classification returns immediately, and
the `found` state persists across arrays. -/
def detectLoop (content : List Char) :
    Nat → List Char → StringArrayResult → StringArrayResult
  | _, [], found => found
  | i, '[' :: rest, found =>
      let found1 := detectAtBracket content i rest found
      if found1 = StringArrayResult.obfuscated then StringArrayResult.obfuscated
      else detectLoop content (i + 1) rest found1
  | i, _ :: rest, found => detectLoop content (i + 1) rest found

/-- `detectLargeStringArray` of `obfuscation.ts` (lines 75–122). -/
def detectLargeStringArray (content : List Char) : StringArrayResult :=
  detectLoop content 0 content StringArrayResult.noArray

/-- The string-array finding step of `scanObfuscation` (lines 316–334). -/
def stringArrayFindings (relPath : String) (content : List Char) : List Finding :=
  match detectLargeStringArray content with
  | StringArrayResult.obfuscated =>
      [{ scanner := "obfuscation", severity := Severity.critical,
         message := "Large string array (>50 elements) with obfuscation markers",
         file := some relPath,
         evidence := some "String array with 50+ elements and rotation/encoding detected" }]
  | StringArrayResult.data =>
      [{ scanner := "obfuscation", severity := Severity.info,
         message := "Large string array (>50 elements) — appears to be a data table",
         file := some relPath,
         evidence := some "String array with 50+ readable elements (keywords, identifiers, etc.)" }]
  | StringArrayResult.noArray => []

/-! ## C7: string-array classification -/

/-- A bracketed run of exactly `n` double-quoted two-letter strings. -/
def quotedRun (n : Nat) : List Char :=
  '[' :: (List.replicate n (("\"aa\",").data)).flatten ++ [']']

/-- A 51-element run followed by the push/shift rotation idiom. -/
def rotContent : List Char := quotedRun 51 ++ (".push(x); a.shift()").data

/-- C7 is false on the code at exactly 50 elements: the detector requires
`strings.length > 50`, so a file whose array has exactly 50 consecutive
quoted-string elements is not classified and gets no finding at all,
where the claim demands an info data finding. -/
theorem claim7_counterexample :
    detectLargeStringArray (quotedRun 50) = StringArrayResult.noArray ∧
    stringArrayFindings "payload.js" (quotedRun 50) = [] := by
  constructor
  · decide
  · decide

/-- C7 amended: an array needs strictly more than 50 (i.e. at least 51)
collected elements to be classified, and the 500-character rotation
window starts at the scan position after the element that triggered
classification (the closing bracket for a 51-element array); once
classification happens it is a dichotomy — obfuscated (critical finding)
exactly when `.push(` and `.shift(` both occur in the window, data (info
finding) otherwise, including the low-readability case. -/
theorem claim7_amended :
    (∀ (strings : List (List Char)) (content : List Char) (i j : Nat),
      classifyStringArray strings content i j ≠ StringArrayResult.noArray ∧
      (classifyStringArray strings content i j = StringArrayResult.obfuscated ↔
        (testDotCall ("push".data) ((content.drop j).take 500) &&
          testDotCall ("shift".data) ((content.drop j).take 500)) = true)) ∧
    detectLargeStringArray (quotedRun 51) = StringArrayResult.data ∧
    stringArrayFindings "payload.js" (quotedRun 51) =
      [{ scanner := "obfuscation", severity := Severity.info,
         message := "Large string array (>50 elements) — appears to be a data table",
         file := some "payload.js",
         evidence := some "String array with 50+ readable elements (keywords, identifiers, etc.)" }] ∧
    detectLargeStringArray rotContent = StringArrayResult.obfuscated ∧
    stringArrayFindings "payload.js" rotContent =
      [{ scanner := "obfuscation", severity := Severity.critical,
         message := "Large string array (>50 elements) with obfuscation markers",
         file := some "payload.js",
         evidence := some "String array with 50+ elements and rotation/encoding detected" }] := by
  refine ⟨?_, by decide, by decide, by decide, by decide⟩
  intro strings content i j
  simp only [classifyStringArray]
  constructor
  · split_ifs <;> simp
  · split_ifs with h1 h2 h3
    · simp only [Bool.and_eq_true] at h1
      simp [h1.1]
    · simp [h2]
    · simp only [Bool.not_eq_true] at h2
      simp [h2]
    · simp only [Bool.not_eq_true] at h2
      simp [h2]

end NpxRay
